import Mathlib

/-!
Shallow embedding of the serverless document-converter scripts.

Source files modelled here:
- `src/functions/word_to_pdf.py` (Word to PDF via a headless LibreOffice subprocess),
- `src/pdf_to_word.py` (validated PDF to Word converter),
- `src/functions/pdf_to_word.py` (second PDF to Word variant).

Paths are POSIX path strings, modelled as `List Char`. The filesystem, the
subprocess and the pdf2docx library are modelled as oracles supplied through
environment structures; each script run yields the ordered trace of filesystem
operations it performed, the lines it printed, and how it terminated.
-/

/-- Python str.startswith on character lists: `pyStartsWith pre s` is true when
`pre` is a prefix of `s`. Also used as the occurrence test of `str.replace`. -/
def pyStartsWith : List Char → List Char → Bool
  | [], _ => true
  | _ :: _, [] => false
  | p :: ps, c :: cs => p == c && pyStartsWith ps cs

/-- Fuel-indexed scanner for Python str.replace: replaces every non-overlapping
occurrence of `old` by `new`, scanning left to right, exactly as CPython does
for a nonempty `old`. The fuel is always instantiated with the length of the
scanned list, which suffices for the scan to finish. -/
def replaceAllF (old new : List Char) : Nat → List Char → List Char
  | _, [] => []
  | 0, s => s
  | fuel + 1, c :: rest =>
    if !old.isEmpty && pyStartsWith old (c :: rest) then
      new ++ replaceAllF old new fuel (rest.drop (old.length - 1))
    else
      c :: replaceAllF old new fuel rest

/-- Python `s.replace(old, new)` for nonempty `old` (the only use in the source
is `.replace('.docx', '.pdf')`). -/
def replaceAll (old new s : List Char) : List Char :=
  replaceAllF old new s.length s

/-- Python posixpath.basename: everything after the last slash. -/
def basename (p : List Char) : List Char :=
  (p.reverse.takeWhile (fun c => c != '/')).reverse

/-- Head part of posixpath.split: `p[:i]` where `i = p.rfind('/') + 1`,
trailing slash kept. -/
def splitHeadRaw (p : List Char) : List Char :=
  (p.reverse.dropWhile (fun c => c != '/')).reverse

/-- Python posixpath.dirname: the head part of the split, with trailing slashes
stripped unless the head consists only of slashes. -/
def dirname (p : List Char) : List Char :=
  if !(splitHeadRaw p).isEmpty && (splitHeadRaw p).any (fun c => c != '/') then
    ((splitHeadRaw p).reverse.dropWhile (fun c => c == '/')).reverse
  else splitHeadRaw p

/-- Python posixpath.join for two arguments: an absolute second argument wins;
otherwise the parts are glued, inserting a slash only when the first part is
nonempty and does not already end in a slash. -/
def pyJoin (a b : List Char) : List Char :=
  if pyStartsWith [ '/' ] b then b
  else if a.isEmpty || (a.getLast? == some '/') then a ++ b
  else a ++ '/' :: b

/-- Decimal rendering of a natural number, as Python str(int). -/
def natLit (n : Nat) : List Char :=
  (Nat.repr n).toList

/-- Python exception values that the scripts can raise. `exception msg` stands
for `Exception(msg)`; `timeoutExpired cmd t` stands for
`subprocess.TimeoutExpired(cmd, t)` raised by `subprocess.run` on timeout. -/
inductive PyExc where
  | exception (msg : List Char)
  | timeoutExpired (cmd : List (List Char)) (timeout : Nat)
deriving DecidableEq

/-- Whether the raised value is an instance of Python class `Exception`, the
class named by the `except Exception` handlers in all three scripts. Both
modelled exceptions are: `Exception` trivially, and `subprocess.TimeoutExpired`
because it subclasses `SubprocessError`, which subclasses `Exception`. -/
def PyExc.isException : PyExc → Bool
  | .exception _ => true
  | .timeoutExpired _ _ => true

/-- Python repr of a string, assuming no quote characters in the content:
the content wrapped in single quotes (character code 39). -/
def pyReprStr (s : List Char) : List Char :=
  Char.ofNat 39 :: s ++ [ Char.ofNat 39 ]

/-- Python repr of a list of strings, as printed by str on a list. -/
def pyReprStrList (l : List (List Char)) : List Char :=
  '[' :: List.intercalate ", ".toList (l.map pyReprStr) ++ [ ']' ]

/-- Python str(e) for the modelled exceptions: the message for `Exception`,
and the standard TimeoutExpired rendering for a timeout. -/
def PyExc.str : PyExc → List Char
  | .exception msg => msg
  | .timeoutExpired cmd t =>
      "Command ".toList ++ pyReprStr (pyReprStrList cmd) ++
        " timed out after ".toList ++ natLit t ++ " seconds".toList

/-- Filesystem and process operations a script can perform, recorded in order. -/
inductive FsOp where
  | existsCheck (p : List Char)
  | makedirs (d : List Char)
  | openRead (p : List Char)
  | convertWrite (p : List Char)
  | closeOp
  | runProc (cmd : List (List Char)) (timeout : Nat)
  | rename (src dst : List Char)
deriving DecidableEq

/-- How a script run ends: the function returns normally (for the scripts this
means the process later exits with code 0), `sys.exit(code)` is called, or an
exception propagates uncaught. -/
inductive Outcome where
  | normalReturn
  | exited (code : Nat)
  | uncaught (e : PyExc)
deriving DecidableEq

/-- Observable behaviour of one script run: ordered filesystem-operation trace,
printed lines (stdout and stderr merged in order), and the termination mode. -/
structure ScriptRun where
  ops : List FsOp
  printed : List (List Char)
  outcome : Outcome
deriving DecidableEq

/-- Result of `subprocess.run(command, capture_output=True, text=True,
timeout=240)`: either a completed process with its return code and stderr, or
a raised timeout. -/
inductive RunOutcome where
  | completed (returncode : Int) (stderr : List Char)
  | timedOut
deriving DecidableEq

/-- World oracle for `src/functions/word_to_pdf.py`: the filesystem before the
subprocess call, the behaviour of the one subprocess invocation, and the
filesystem as observed after the subprocess returns. -/
structure WordEnv where
  pathExists : List Char → Bool
  runResult : RunOutcome
  existsAfterRun : List Char → Bool

/-- Hardcoded LibreOffice location from `src/functions/word_to_pdf.py` line 8. -/
def libreoffice_path : List Char :=
  "/usr/lib/libreoffice/program/soffice".toList

/-- Subprocess argument vector built at `src/functions/word_to_pdf.py`
lines 13 to 19. -/
def soffice_command (input_path output_path : List Char) : List (List Char) :=
  [ libreoffice_path, "--headless".toList, "--convert-to".toList, "pdf".toList,
    "--outdir".toList, dirname output_path, input_path ]

/-- Auto-named output location computed at `src/functions/word_to_pdf.py`
line 26: `os.path.join(os.path.dirname(output_path),
os.path.basename(input_path).replace('.docx', '.pdf'))`. -/
def generated_pdf (input_path output_path : List Char) : List Char :=
  pyJoin (dirname output_path)
    (replaceAll ".docx".toList ".pdf".toList (basename input_path))

/-- Handler `except Exception as e` of `convert_word_to_pdf` (lines 33 to 35):
if the raised value is an `Exception` instance it prints the error to stderr
and calls `sys.exit(1)`; otherwise the value would propagate uncaught. -/
def wordHandle (ops : List FsOp) (e : PyExc) : ScriptRun :=
  if e.isException then
    { ops := ops, printed := [ "Error: ".toList ++ e.str ], outcome := Outcome.exited 1 }
  else
    { ops := ops, printed := [], outcome := Outcome.uncaught e }

/-- Embedding of `convert_word_to_pdf` from `src/functions/word_to_pdf.py`:
check the LibreOffice binary, run it headless with the output directory and
the input path under a 240 second timeout, check the return code, check that
the auto-named PDF exists, and rename it to the requested output path. -/
def convert_word_to_pdf (env : WordEnv) (input_path output_path : List Char) : ScriptRun :=
  if env.pathExists libreoffice_path = false then
    wordHandle [ FsOp.existsCheck libreoffice_path ]
      (PyExc.exception "LibreOffice not found".toList)
  else
    let cmd := soffice_command input_path output_path
    let ops1 := [ FsOp.existsCheck libreoffice_path, FsOp.runProc cmd 240 ]
    match env.runResult with
    | RunOutcome.timedOut => wordHandle ops1 (PyExc.timeoutExpired cmd 240)
    | RunOutcome.completed rc errOut =>
      if rc ≠ 0 then
        wordHandle ops1 (PyExc.exception ("LibreOffice failed: ".toList ++ errOut))
      else
        let gen := generated_pdf input_path output_path
        if env.existsAfterRun gen = false then
          wordHandle (ops1 ++ [ FsOp.existsCheck gen ])
            (PyExc.exception "Output PDF not created".toList)
        else
          { ops := ops1 ++ [ FsOp.existsCheck gen, FsOp.rename gen output_path ],
            printed := [], outcome := Outcome.normalReturn }

/-- Usage line of `src/functions/word_to_pdf.py`, printed to stderr. -/
def usage_word : List Char :=
  "Usage: python word_to_pdf.py <input_path> <output_path>".toList

/-- Embedding of the `__main__` block of `src/functions/word_to_pdf.py`. -/
def word_to_pdf_script (env : WordEnv) (argv : List (List Char)) : ScriptRun :=
  match argv with
  | [_, i, o] => convert_word_to_pdf env i o
  | _ => { ops := [], printed := [ usage_word ], outcome := Outcome.exited 1 }

/-- World oracle shared by both PDF to Word variants: the filesystem, the
pdf2docx `Converter` lifecycle calls (constructor, page-count query, convert,
close), and the filesystem as observed after the conversion calls return.
For the constructor, convert and close calls the oracle gives the exception
the call raises, or `none` when the call returns; the page-count query either
raises or returns a number. -/
structure PdfEnv where
  pathExists : List Char → Bool
  converterInit : List Char → Option PyExc
  getPages : List Char → Except PyExc Nat
  convert : List Char → List Char → Option PyExc
  close : List Char → Option PyExc
  outputExistsAfter : List Char → Bool

/-- Observable behaviour of the function `convert_pdf_to_word` in
`src/pdf_to_word.py`: operation trace, printed log lines, and the returned
boolean (`Except.error` would mean an uncaught propagating value). -/
structure PdfRun where
  ops : List FsOp
  printed : List (List Char)
  ret : Except PyExc Bool

/-- Handler `except Exception as e` of `convert_pdf_to_word` (lines 66 to 68):
an `Exception` instance is logged and turned into the return value `False`. -/
def pdfHandle (ops : List FsOp) (printed : List (List Char)) (e : PyExc) : PdfRun :=
  if e.isException then
    { ops := ops,
      printed := printed ++ [ "[ERROR] Conversion error: ".toList ++ e.str ],
      ret := Except.ok false }
  else
    { ops := ops, printed := printed, ret := Except.error e }

/-- Log line for a missing input file in `src/pdf_to_word.py` line 33. -/
def errNotFound (p : List Char) : List Char :=
  "[ERROR] Input file not found: ".toList ++ p

/-- Log line emitted by `src/pdf_to_word.py` line 42. -/
def infoInit : List Char :=
  "[INFO] [1/4] Initializing conversion...".toList

/-- Log line emitted by `src/pdf_to_word.py` line 43. -/
def infoConverting (p d : List Char) : List Char :=
  "[INFO] Converting ".toList ++ p ++ " to ".toList ++ d

/-- Log line emitted by `src/pdf_to_word.py` line 48. -/
def infoAnalyzing : List Char :=
  "[INFO] [2/4] Analyzing document structure...".toList

/-- Log line emitted by `src/pdf_to_word.py` line 49. -/
def infoPages (n : Nat) : List Char :=
  "[INFO] Document has ".toList ++ natLit n ++ " pages".toList

/-- Log line emitted by `src/pdf_to_word.py` line 52. -/
def infoContent : List Char :=
  "[INFO] [3/4] Converting content...".toList

/-- Log line emitted by `src/pdf_to_word.py` line 56. -/
def infoFinal : List Char :=
  "[INFO] [4/4] Finalizing document...".toList

/-- Log line emitted by `src/pdf_to_word.py` line 60. -/
def infoSuccess (d : List Char) : List Char :=
  "[INFO] Conversion completed successfully: ".toList ++ d

/-- Log line emitted by `src/pdf_to_word.py` line 63. -/
def errNotCreated : List Char :=
  "[ERROR] Conversion failed: Output file not created".toList

/-- Embedding of `convert_pdf_to_word` from `src/pdf_to_word.py`: validate the
input path, create the output directory when it is nonempty and missing, run
the pdf2docx open, page-count, convert and close calls, and succeed exactly
when the output file exists afterwards; the `except Exception` handler turns
any raised `Exception` into the return value `False`. -/
def convert_pdf_to_word (env : PdfEnv) (pdf_path docx_path : List Char) : PdfRun :=
  if env.pathExists pdf_path = false then
    { ops := [ FsOp.existsCheck pdf_path ],
      printed := [ errNotFound pdf_path ],
      ret := Except.ok false }
  else
    let output_dir := dirname docx_path
    let dirOps :=
      if output_dir = [] then []
      else if env.pathExists output_dir = false then
        [ FsOp.existsCheck output_dir, FsOp.makedirs output_dir ]
      else [ FsOp.existsCheck output_dir ]
    let ops1 := FsOp.existsCheck pdf_path :: dirOps
    let printed1 := [ infoInit, infoConverting pdf_path docx_path ]
    match env.converterInit pdf_path with
    | some e => pdfHandle (ops1 ++ [ FsOp.openRead pdf_path ]) printed1 e
    | none =>
      let ops2 := ops1 ++ [ FsOp.openRead pdf_path ]
      match env.getPages pdf_path with
      | Except.error e => pdfHandle ops2 printed1 e
      | Except.ok n =>
        let printed2 := printed1 ++ [ infoAnalyzing, infoPages n, infoContent ]
        match env.convert pdf_path docx_path with
        | some e => pdfHandle (ops2 ++ [ FsOp.convertWrite docx_path ]) printed2 e
        | none =>
          match env.close pdf_path with
          | some e =>
            pdfHandle (ops2 ++ [ FsOp.convertWrite docx_path, FsOp.closeOp ]) printed2 e
          | none =>
            let ops3 := ops2 ++
              [ FsOp.convertWrite docx_path, FsOp.closeOp, FsOp.existsCheck docx_path ]
            let printed3 := printed2 ++ [ infoFinal ]
            if env.outputExistsAfter docx_path then
              { ops := ops3, printed := printed3 ++ [ infoSuccess docx_path ],
                ret := Except.ok true }
            else
              { ops := ops3, printed := printed3 ++ [ errNotCreated ],
                ret := Except.ok false }

/-- Usage line of `src/pdf_to_word.py`, emitted through logging.error. -/
def usage_pdf : List Char :=
  "[ERROR] Usage: python3 pdf_to_word.py <input_pdf_path> <output_docx_path>".toList

/-- Embedding of `main` of `src/pdf_to_word.py`: usage check, then
`sys.exit(0 if success else 1)`. -/
def pdf_to_word_script (env : PdfEnv) (argv : List (List Char)) : ScriptRun :=
  match argv with
  | [_, p, d] =>
    let r := convert_pdf_to_word env p d
    match r.ret with
    | Except.ok b =>
      { ops := r.ops, printed := r.printed, outcome := Outcome.exited (if b then 0 else 1) }
    | Except.error e => { ops := r.ops, printed := r.printed, outcome := Outcome.uncaught e }
  | _ => { ops := [], printed := [ usage_pdf ], outcome := Outcome.exited 1 }

/-- Progress line printed by the loop in `src/functions/pdf_to_word.py`
line 14. -/
def progressLine (page num_pages : Nat) : List Char :=
  "[INFO] (".toList ++ natLit page ++ "/".toList ++ natLit num_pages ++
    ") Page ".toList ++ natLit page

/-- Lines printed by `for page in range(1, num_pages + 1)` in
`src/functions/pdf_to_word.py` lines 13 to 14. -/
def progressLines (num_pages : Nat) : List (List Char) :=
  (List.range num_pages).map (fun k => progressLine (k + 1) num_pages)

/-- First stage line of `src/functions/pdf_to_word.py`. -/
def fnL1 : List Char :=
  "[INFO] [1/4] Initializing converter...".toList

/-- Second stage line of `src/functions/pdf_to_word.py`. -/
def fnL2 : List Char :=
  "[INFO] [2/4] Parsing PDF...".toList

/-- Third stage line of `src/functions/pdf_to_word.py`. -/
def fnL3 : List Char :=
  "[INFO] [3/4] Converting to Word...".toList

/-- Fourth stage line of `src/functions/pdf_to_word.py`. -/
def fnL4 : List Char :=
  "[INFO] [4/4] Finalizing...".toList

/-- Success line of `src/functions/pdf_to_word.py` line 21. -/
def fnSuccess (p d : List Char) : List Char :=
  "Success: Converted ".toList ++ p ++ " to ".toList ++ d

/-- Error line of `src/functions/pdf_to_word.py` line 23. -/
def fnErr (e : PyExc) : List Char :=
  "Error: ".toList ++ e.str

/-- Handler `except Exception as e` of `src/functions/pdf_to_word.py`
lines 22 to 24: print the error and call `sys.exit(1)`. -/
def fnHandle (ops : List FsOp) (printed : List (List Char)) (e : PyExc) : ScriptRun :=
  if e.isException then
    { ops := ops, printed := printed ++ [ fnErr e ], outcome := Outcome.exited 1 }
  else
    { ops := ops, printed := printed, outcome := Outcome.uncaught e }

/-- Embedding of `pdf_to_word` from `src/functions/pdf_to_word.py`: open the
converter, print a fabricated ten-page progress display, convert, close, and
print a success line; no input validation, no output directory creation, and
no output existence check. A normal return means the process later exits 0. -/
def fn_pdf_to_word (env : PdfEnv) (pdf_path docx_path : List Char) : ScriptRun :=
  match env.converterInit pdf_path with
  | some e => fnHandle [ FsOp.openRead pdf_path ] [ fnL1 ] e
  | none =>
    let printed1 := fnL1 :: fnL2 :: (progressLines 10 ++ [ fnL3 ])
    match env.convert pdf_path docx_path with
    | some e =>
      fnHandle [ FsOp.openRead pdf_path, FsOp.convertWrite docx_path ] printed1 e
    | none =>
      let printed2 := printed1 ++ [ fnL4 ]
      match env.close pdf_path with
      | some e =>
        fnHandle [ FsOp.openRead pdf_path, FsOp.convertWrite docx_path, FsOp.closeOp ]
          printed2 e
      | none =>
        { ops := [ FsOp.openRead pdf_path, FsOp.convertWrite docx_path, FsOp.closeOp ],
          printed := printed2 ++ [ fnSuccess pdf_path docx_path ],
          outcome := Outcome.normalReturn }

/-- Usage line of `src/functions/pdf_to_word.py`, printed to stdout. -/
def usage_fn : List Char :=
  "Usage: python pdf_to_word.py <pdf_path> <docx_path>".toList

/-- Embedding of the `__main__` block of `src/functions/pdf_to_word.py`. -/
def fn_pdf_to_word_script (env : PdfEnv) (argv : List (List Char)) : ScriptRun :=
  match argv with
  | [_, p, d] => fn_pdf_to_word env p d
  | _ => { ops := [], printed := [ usage_fn ], outcome := Outcome.exited 1 }

/-- World in which every filesystem check succeeds, the subprocess completes
with return code 0, and every post-run existence check succeeds. -/
def envWordOk : WordEnv :=
  { pathExists := fun _ => true,
    runResult := RunOutcome.completed 0 [],
    existsAfterRun := fun _ => true }

/-- World in which the LibreOffice binary exists and the subprocess call
exceeds its timeout. -/
def envWordTimeout : WordEnv :=
  { pathExists := fun _ => true,
    runResult := RunOutcome.timedOut,
    existsAfterRun := fun _ => false }

/-- World in which the LibreOffice binary is absent. -/
def envWordNoSoffice : WordEnv :=
  { pathExists := fun _ => false,
    runResult := RunOutcome.completed 0 [],
    existsAfterRun := fun _ => false }

/-- World in which every path exists, every pdf2docx call succeeds, and the
output file exists after conversion. -/
def envPdfAllOk : PdfEnv :=
  { pathExists := fun _ => true,
    converterInit := fun _ => none,
    getPages := fun _ => Except.ok 3,
    convert := fun _ _ => none,
    close := fun _ => none,
    outputExistsAfter := fun _ => true }

/-- World in which every pdf2docx call succeeds but no output file ever
appears on the filesystem. -/
def envPdfNoOutput : PdfEnv :=
  { pathExists := fun _ => true,
    converterInit := fun _ => none,
    getPages := fun _ => Except.ok 3,
    convert := fun _ _ => none,
    close := fun _ => none,
    outputExistsAfter := fun _ => false }

/-- World in which only the file `in.pdf` exists (in particular no output
directory exists), and every pdf2docx call succeeds. -/
def envPdfNoDirs : PdfEnv :=
  { pathExists := fun q => q == "in.pdf".toList,
    converterInit := fun _ => none,
    getPages := fun _ => Except.ok 3,
    convert := fun _ _ => none,
    close := fun _ => none,
    outputExistsAfter := fun _ => true }

/-- World in which no path exists at all. -/
def envPdfAbsent : PdfEnv :=
  { pathExists := fun _ => false,
    converterInit := fun _ => none,
    getPages := fun _ => Except.ok 3,
    convert := fun _ _ => none,
    close := fun _ => none,
    outputExistsAfter := fun _ => false }

theorem isException_true (e : PyExc) : e.isException = true := by
  cases e <;> rfl

theorem pyStartsWith_iff (p s : List Char) : pyStartsWith p s = true ↔ ∃ t, p ++ t = s := by
  induction p generalizing s with
  | nil => simp [pyStartsWith]
  | cons a as ih =>
    cases s with
    | nil => simp [pyStartsWith]
    | cons b bs =>
      simp only [pyStartsWith, Bool.and_eq_true, beq_iff_eq, ih, List.cons_append,
        List.cons.injEq]
      constructor
      · rintro ⟨hab, t, ht⟩
        exact ⟨t, hab, ht⟩
      · rintro ⟨t, hab, ht⟩
        exact ⟨hab, t, ht⟩

theorem replaceAllF_nil (old new : List Char) (fuel : Nat) :
    replaceAllF old new fuel [] = [] := by
  cases fuel <;> rfl

theorem replaceAllF_cons_succ (old new : List Char) (fuel : Nat) (c : Char) (rest : List Char) :
    replaceAllF old new (fuel + 1) (c :: rest) =
      if !old.isEmpty && pyStartsWith old (c :: rest) then
        new ++ replaceAllF old new fuel (rest.drop (old.length - 1))
      else
        c :: replaceAllF old new fuel rest := rfl

theorem replaceAllF_stem (old new : List Char) (hold : old ≠ []) :
    ∀ (stem : List Char) (fuel : Nat), (stem ++ old).length ≤ fuel →
      ¬ old <:+: (stem ++ old.dropLast) →
      replaceAllF old new fuel (stem ++ old) = stem ++ new := by
  intro stem
  induction stem with
  | nil =>
    intro fuel hfuel _
    cases old with
    | nil => exact absurd rfl hold
    | cons a as =>
      cases fuel with
      | zero => simp at hfuel
      | succ f =>
        rw [List.nil_append, replaceAllF_cons_succ, if_pos]
        · have hdrop : as.drop ((a :: as).length - 1) = [] := by
            simp [List.length_cons]
          rw [hdrop, replaceAllF_nil, List.append_nil, List.nil_append]
        · have hsw : pyStartsWith (a :: as) (a :: as) = true :=
            (pyStartsWith_iff _ _).mpr ⟨[], List.append_nil _⟩
          simp [hsw]
  | cons c st ih =>
    intro fuel hfuel hno
    cases fuel with
    | zero => simp at hfuel
    | succ f =>
      rw [List.cons_append, replaceAllF_cons_succ]
      cases hb : pyStartsWith old (c :: (st ++ old)) with
      | true =>
        exfalso
        obtain ⟨t, ht⟩ := (pyStartsWith_iff old (c :: (st ++ old))).mp hb
        have htne : t ≠ [] := by
          intro h0
          subst h0
          have hlen := congrArg List.length ht
          simp [List.length_append] at hlen
          omega
        have hdl : old ++ t.dropLast = (c :: st) ++ old.dropLast := by
          calc old ++ t.dropLast = (old ++ t).dropLast :=
                (List.dropLast_append_of_ne_nil old htne).symm
            _ = ((c :: st) ++ old).dropLast := by rw [ht]; rfl
            _ = (c :: st) ++ old.dropLast := List.dropLast_append_of_ne_nil (c :: st) hold
        exact hno ⟨[], t.dropLast, by simpa using hdl⟩
      | false =>
        rw [if_neg (by simp [hb])]
        have ihf : replaceAllF old new f (st ++ old) = st ++ new := by
          apply ih
          · simp only [List.length_append, List.length_cons] at hfuel ⊢
            omega
          · intro hinf
            obtain ⟨s, t, hst⟩ := hinf
            exact hno ⟨c :: s, t, by simp [← hst]⟩
        rw [ihf]
        rfl

theorem replaceAll_stem (old new stem : List Char) (hold : old ≠ [])
    (hno : ¬ old <:+: (stem ++ old.dropLast)) :
    replaceAll old new (stem ++ old) = stem ++ new :=
  replaceAllF_stem old new hold stem (stem ++ old).length le_rfl hno

theorem mem_replaceAllF (old new : List Char) (a : Char) :
    ∀ (fuel : Nat) (s : List Char), a ∈ replaceAllF old new fuel s → a ∈ new ∨ a ∈ s := by
  intro fuel
  induction fuel with
  | zero =>
    intro s h
    cases s with
    | nil => rw [replaceAllF_nil] at h; simp at h
    | cons c rest => exact Or.inr h
  | succ f ih =>
    intro s h
    cases s with
    | nil => rw [replaceAllF_nil] at h; simp at h
    | cons c rest =>
      rw [replaceAllF_cons_succ] at h
      by_cases hc : (!old.isEmpty && pyStartsWith old (c :: rest)) = true
      · rw [if_pos hc] at h
        rcases List.mem_append.mp h with h1 | h2
        · exact Or.inl h1
        · rcases ih _ h2 with h3 | h4
          · exact Or.inl h3
          · exact Or.inr (List.mem_cons_of_mem c (List.drop_subset _ rest h4))
      · rw [if_neg hc] at h
        rcases List.mem_cons.mp h with h1 | h2
        · exact Or.inr (by simp [h1])
        · rcases ih _ h2 with h3 | h4
          · exact Or.inl h3
          · exact Or.inr (List.mem_cons_of_mem c h4)

theorem mem_replaceAll (old new s : List Char) (a : Char) (h : a ∈ replaceAll old new s) :
    a ∈ new ∨ a ∈ s :=
  mem_replaceAllF old new a s.length s h

theorem splitHeadRaw_eq_nil (o : List Char) (h : '/' ∉ o) : splitHeadRaw o = [] := by
  unfold splitHeadRaw
  have hd : o.reverse.dropWhile (fun c => c != '/') = [] := by
    apply List.dropWhile_eq_nil_iff.mpr
    intro x hx
    have hxo : x ∈ o := List.mem_reverse.mp hx
    simp only [bne_iff_ne, ne_eq]
    intro he
    exact h (he ▸ hxo)
  rw [hd]
  rfl

theorem dirname_no_slash (o : List Char) (h : '/' ∉ o) : dirname o = [] := by
  unfold dirname
  rw [splitHeadRaw_eq_nil o h]
  rfl

theorem basename_no_slash (p : List Char) : '/' ∉ basename p := by
  intro h
  unfold basename at h
  have h1 : '/' ∈ p.reverse.takeWhile (fun c => c != '/') := List.mem_reverse.mp h
  have h2 := List.mem_takeWhile_imp (p := fun c => c != '/') h1
  simp at h2

theorem pyJoin_nil (b : List Char) : pyJoin [] b = b := by
  unfold pyJoin
  by_cases h : pyStartsWith [ '/' ] b = true
  · rw [if_pos h]
  · rw [if_neg h, if_pos (by decide), List.nil_append]

theorem progressLines_length : (progressLines 10).length = 10 := by
  simp [progressLines]

theorem take_progress (Y : List (List Char)) :
    (progressLines 10 ++ Y).take 10 = progressLines 10 := by
  have h := List.take_left (progressLines 10) Y
  rwa [progressLines_length] at h

/-- C1: for every input and output path, when the LibreOffice subprocess
completes with return code 0 and the auto-named output file exists,
`convert_word_to_pdf` performs exactly the checks, the subprocess call, and a
rename of the auto-named file to exactly the requested output path, prints
nothing, and returns normally (so the process exits 0 and the PDF ends up at
the requested output path). -/
theorem c1_word_success_renames_to_output (env : WordEnv) (input_path output_path errOut : List Char)
    (hlo : env.pathExists libreoffice_path = true)
    (hrun : env.runResult = RunOutcome.completed 0 errOut)
    (hgen : env.existsAfterRun (generated_pdf input_path output_path) = true) :
    convert_word_to_pdf env input_path output_path =
      { ops := [ FsOp.existsCheck libreoffice_path,
                 FsOp.runProc (soffice_command input_path output_path) 240,
                 FsOp.existsCheck (generated_pdf input_path output_path),
                 FsOp.rename (generated_pdf input_path output_path) output_path ],
        printed := [], outcome := Outcome.normalReturn } := by
  simp [convert_word_to_pdf, hlo, hrun, hgen]

/-- C1 witness: a concrete successful run renames the auto-named file to the
requested output path. -/
theorem c1_witness :
    convert_word_to_pdf envWordOk "a.docx".toList "b/out.pdf".toList =
      { ops := [ FsOp.existsCheck libreoffice_path,
                 FsOp.runProc (soffice_command "a.docx".toList "b/out.pdf".toList) 240,
                 FsOp.existsCheck (generated_pdf "a.docx".toList "b/out.pdf".toList),
                 FsOp.rename (generated_pdf "a.docx".toList "b/out.pdf".toList)
                   "b/out.pdf".toList ],
        printed := [], outcome := Outcome.normalReturn } :=
  c1_word_success_renames_to_output envWordOk "a.docx".toList "b/out.pdf".toList [] rfl rfl rfl

/-- C2 counterexample: for the input path `dir/report.doc`, whose base name
does not end in `.docx`, the auto-named file that `convert_word_to_pdf`
checks and renames is `dir/report.doc`: its filename equals the input base
name unchanged and does not carry a `.pdf` extension, refuting the claim that
the filename is the base name with a `.pdf` extension also in this case. -/
theorem c2_counterexample :
    generated_pdf "dir/report.doc".toList "dir/out.pdf".toList = "dir/report.doc".toList ∧
    basename (generated_pdf "dir/report.doc".toList "dir/out.pdf".toList) =
      "report.doc".toList ∧
    ¬ (".pdf".toList <:+
        basename (generated_pdf "dir/report.doc".toList "dir/out.pdf".toList)) :=
  ⟨by decide, by decide, by decide⟩

/-- C2 amended: the auto-named file is located in the output directory of the
requested output path, joined with the input base name after replacing every
occurrence of `.docx` by `.pdf`; in particular, when the base name ends in
`.docx` and contains `.docx` nowhere earlier, the filename is the base name
with its `.docx` suffix replaced by `.pdf`. -/
theorem c2_amended_generated_name (input_path output_path stem : List Char)
    (hb : basename input_path = stem ++ ".docx".toList)
    (hno : ¬ (".docx".toList <:+: (stem ++ ".doc".toList))) :
    generated_pdf input_path output_path =
      pyJoin (dirname output_path) (stem ++ ".pdf".toList) := by
  unfold generated_pdf
  rw [hb, replaceAll_stem ".docx".toList ".pdf".toList stem (by decide)]
  have hdl : (".docx".toList).dropLast = ".doc".toList := by decide
  rw [hdl]
  exact hno

/-- C2 amended witness: for input base name `report.docx` the auto-named file
is the output directory joined with `report.pdf`. -/
theorem c2_witness :
    generated_pdf "a/report.docx".toList "a/out.pdf".toList =
      pyJoin (dirname "a/out.pdf".toList) ("report".toList ++ ".pdf".toList) :=
  c2_amended_generated_name "a/report.docx".toList "a/out.pdf".toList "report".toList
    (by decide) (by decide)

/-- C3 counterexample: in a world where the LibreOffice binary exists and the
subprocess call times out, `convert_word_to_pdf` terminates with a clean
`sys.exit(1)` — the timeout exception does not propagate uncaught, refuting
the claim. -/
theorem c3_counterexample :
    (convert_word_to_pdf envWordTimeout "a.docx".toList "b/out.pdf".toList).outcome =
      Outcome.exited 1 ∧
    envWordTimeout.runResult = RunOutcome.timedOut :=
  ⟨by decide, rfl⟩

/-- C3 amended: when the subprocess exceeds the 240 second timeout, the raised
`subprocess.TimeoutExpired` is an `Exception` instance, so the handler of
`convert_word_to_pdf` catches it, prints the error, and exits cleanly with
code 1. -/
theorem c3_amended_timeout_caught (env : WordEnv) (input_path output_path : List Char)
    (hlo : env.pathExists libreoffice_path = true)
    (hrun : env.runResult = RunOutcome.timedOut) :
    convert_word_to_pdf env input_path output_path =
      { ops := [ FsOp.existsCheck libreoffice_path,
                 FsOp.runProc (soffice_command input_path output_path) 240 ],
        printed := [ "Error: ".toList ++
          (PyExc.timeoutExpired (soffice_command input_path output_path) 240).str ],
        outcome := Outcome.exited 1 } := by
  simp [convert_word_to_pdf, hlo, hrun, wordHandle, PyExc.isException]

/-- C3 amended witness: a concrete timed-out run is caught and exits 1 after
running the subprocess. -/
theorem c3_witness :
    convert_word_to_pdf envWordTimeout "a.docx".toList "b/out.pdf".toList =
      { ops := [ FsOp.existsCheck libreoffice_path,
                 FsOp.runProc (soffice_command "a.docx".toList "b/out.pdf".toList) 240 ],
        printed := [ "Error: ".toList ++
          (PyExc.timeoutExpired (soffice_command "a.docx".toList "b/out.pdf".toList) 240).str ],
        outcome := Outcome.exited 1 } :=
  c3_amended_timeout_caught envWordTimeout "a.docx".toList "b/out.pdf".toList rfl rfl

/-- C4: when the hardcoded LibreOffice path does not exist, the run performs
only that existence check — in particular no subprocess call — prints the
error, and exits with code 1. -/
theorem c4_missing_soffice_no_subprocess (env : WordEnv) (input_path output_path : List Char)
    (hlo : env.pathExists libreoffice_path = false) :
    convert_word_to_pdf env input_path output_path =
      { ops := [ FsOp.existsCheck libreoffice_path ],
        printed := [ "Error: LibreOffice not found".toList ],
        outcome := Outcome.exited 1 } := by
  simp only [convert_word_to_pdf, hlo, if_pos, wordHandle, PyExc.isException, PyExc.str]
  rfl

/-- C4 witness: a concrete world without the LibreOffice binary exits 1 with
no subprocess invocation in the trace. -/
theorem c4_witness :
    convert_word_to_pdf envWordNoSoffice "a.docx".toList "b/out.pdf".toList =
      { ops := [ FsOp.existsCheck libreoffice_path ],
        printed := [ "Error: LibreOffice not found".toList ],
        outcome := Outcome.exited 1 } :=
  c4_missing_soffice_no_subprocess envWordNoSoffice "a.docx".toList "b/out.pdf".toList rfl

/-- C10: for every output path with no directory component, the output
directory computed by `convert_word_to_pdf` is the empty string, the
subprocess argument vector passes that empty string after `--outdir`, and the
auto-named file it checks for is the bare relative filename obtained from the
input base name (containing no slash), with no rejection and no substitution
of the current directory. -/
theorem c10_bare_output_path (input_path output_path : List Char)
    (h : '/' ∉ output_path) :
    dirname output_path = [] ∧
    soffice_command input_path output_path =
      [ libreoffice_path, "--headless".toList, "--convert-to".toList, "pdf".toList,
        "--outdir".toList, [], input_path ] ∧
    generated_pdf input_path output_path =
      replaceAll ".docx".toList ".pdf".toList (basename input_path) ∧
    '/' ∉ generated_pdf input_path output_path := by
  have hd : dirname output_path = [] := dirname_no_slash output_path h
  have hg : generated_pdf input_path output_path =
      replaceAll ".docx".toList ".pdf".toList (basename input_path) := by
    rw [generated_pdf, hd, pyJoin_nil]
  refine ⟨hd, by rw [soffice_command, hd], hg, ?_⟩
  intro hmem
  rw [hg] at hmem
  rcases mem_replaceAll _ _ _ _ hmem with h1 | h2
  · simp at h1
  · exact basename_no_slash input_path h2

/-- C10 witness: for the bare output path `out.pdf` the subprocess receives an
empty output directory and the generated file is the bare name `in.pdf`. -/
theorem c10_witness :
    dirname "out.pdf".toList = [] ∧
    soffice_command "in.docx".toList "out.pdf".toList =
      [ libreoffice_path, "--headless".toList, "--convert-to".toList, "pdf".toList,
        "--outdir".toList, [], "in.docx".toList ] ∧
    generated_pdf "in.docx".toList "out.pdf".toList =
      replaceAll ".docx".toList ".pdf".toList (basename "in.docx".toList) ∧
    '/' ∉ generated_pdf "in.docx".toList "out.pdf".toList :=
  c10_bare_output_path "in.docx".toList "out.pdf".toList (by decide)

/-- C5 counterexample: in a world where every pdf2docx call succeeds but the
output file does not exist afterwards, the variant
`src/functions/pdf_to_word.py` still returns normally (so the process exits 0)
and prints its success line — it reports success although the output file does
not exist, refuting the claim that both variants report success if and only if
the output file exists after the library call. -/
theorem c5_counterexample :
    (fn_pdf_to_word envPdfNoOutput "in.pdf".toList "out.docx".toList).outcome =
      Outcome.normalReturn ∧
    (fn_pdf_to_word envPdfNoOutput "in.pdf".toList "out.docx".toList).printed.getLast? =
      some (fnSuccess "in.pdf".toList "out.docx".toList) ∧
    envPdfNoOutput.outputExistsAfter "out.docx".toList = false :=
  ⟨by decide, by decide, rfl⟩

/-- C5 amended: for `src/pdf_to_word.py`, `convert_pdf_to_word` returns True
exactly when the input exists, all pdf2docx calls succeed, and the output file
exists after they return; every raised exception is caught (the return value
is always a boolean), and the process exit code is 0 exactly on True and 1
exactly on False. For `src/functions/pdf_to_word.py`, the run returns
normally (process exit 0) exactly when no pdf2docx call raises, never lets an
exception propagate uncaught, and calls `sys.exit(1)` exactly when some
pdf2docx call raises — all regardless of whether the output file exists. -/
theorem c5_amended_success_reporting (env : PdfEnv) (p d prog : List Char) :
    ((convert_pdf_to_word env p d).ret = Except.ok true ↔
      (env.pathExists p = true ∧ env.converterInit p = none ∧
        (∃ n, env.getPages p = Except.ok n) ∧ env.convert p d = none ∧
        env.close p = none ∧ env.outputExistsAfter d = true)) ∧
    (∃ b, (convert_pdf_to_word env p d).ret = Except.ok b) ∧
    ((pdf_to_word_script env [ prog, p, d ]).outcome = Outcome.exited 0 ↔
      (convert_pdf_to_word env p d).ret = Except.ok true) ∧
    ((pdf_to_word_script env [ prog, p, d ]).outcome = Outcome.exited 1 ↔
      (convert_pdf_to_word env p d).ret = Except.ok false) ∧
    ((fn_pdf_to_word env p d).outcome = Outcome.normalReturn ↔
      (env.converterInit p = none ∧ env.convert p d = none ∧ env.close p = none)) ∧
    (∀ e, (fn_pdf_to_word env p d).outcome ≠ Outcome.uncaught e) ∧
    ((fn_pdf_to_word env p d).outcome = Outcome.exited 1 ↔
      ¬ (env.converterInit p = none ∧ env.convert p d = none ∧ env.close p = none)) := by
  cases hp : env.pathExists p <;>
    cases hci : env.converterInit p <;>
    cases hgp : env.getPages p <;>
    cases hc : env.convert p d <;>
    cases hcl : env.close p <;>
    cases hoe : env.outputExistsAfter d <;>
    simp_all [convert_pdf_to_word, fn_pdf_to_word, pdf_to_word_script, pdfHandle,
      fnHandle, isException_true]

/-- C6: for any nonexistent input path, `convert_pdf_to_word` returns False
having performed only the input existence check — no directory creation, no
converter call, no write — prints only the not-found error, and the script
exits with code 1. -/
theorem c6_missing_input (env : PdfEnv) (p d prog : List Char)
    (hp : env.pathExists p = false) :
    (convert_pdf_to_word env p d).ret = Except.ok false ∧
    (convert_pdf_to_word env p d).ops = [ FsOp.existsCheck p ] ∧
    (convert_pdf_to_word env p d).printed = [ errNotFound p ] ∧
    (pdf_to_word_script env [ prog, p, d ]).outcome = Outcome.exited 1 := by
  refine ⟨?_, ?_, ?_, ?_⟩ <;>
    simp [convert_pdf_to_word, pdf_to_word_script, hp]

/-- C6 witness: a concrete run on a missing input exits 1 with only the
existence check in its trace. -/
theorem c6_witness :
    (convert_pdf_to_word envPdfAbsent "in.pdf".toList "out.docx".toList).ret =
      Except.ok false ∧
    (convert_pdf_to_word envPdfAbsent "in.pdf".toList "out.docx".toList).ops =
      [ FsOp.existsCheck "in.pdf".toList ] ∧
    (convert_pdf_to_word envPdfAbsent "in.pdf".toList "out.docx".toList).printed =
      [ errNotFound "in.pdf".toList ] ∧
    (pdf_to_word_script envPdfAbsent
      [ "prog".toList, "in.pdf".toList, "out.docx".toList ]).outcome = Outcome.exited 1 :=
  c6_missing_input envPdfAbsent "in.pdf".toList "out.docx".toList "prog".toList rfl

/-- C7 counterexample: in a world where the output directory `newdir` does not
exist, the variant `src/functions/pdf_to_word.py` runs the conversion with a
trace containing no directory creation at all, refuting the claim that both
PDF to Word variants create a missing output directory before converting. -/
theorem c7_counterexample :
    envPdfNoDirs.pathExists (dirname "newdir/out.docx".toList) = false ∧
    dirname "newdir/out.docx".toList ≠ [] ∧
    (fn_pdf_to_word envPdfNoDirs "in.pdf".toList "newdir/out.docx".toList).ops =
      [ FsOp.openRead "in.pdf".toList, FsOp.convertWrite "newdir/out.docx".toList,
        FsOp.closeOp ] :=
  ⟨by decide, by decide, by decide⟩

/-- C7 amended: `src/pdf_to_word.py` creates a nonempty missing output
directory before opening the converter — its trace starts with the input
check, the directory check, and the directory creation; the variant
`src/functions/pdf_to_word.py` never performs a directory creation. -/
theorem c7_amended_mkdir (env : PdfEnv) (p d : List Char)
    (hp : env.pathExists p = true) (hd : dirname d ≠ [])
    (hdir : env.pathExists (dirname d) = false) :
    (∃ rest, (convert_pdf_to_word env p d).ops =
      FsOp.existsCheck p :: FsOp.existsCheck (dirname d) ::
        FsOp.makedirs (dirname d) :: rest) ∧
    (∀ dir, FsOp.makedirs dir ∉ (fn_pdf_to_word env p d).ops) := by
  constructor
  · cases hci : env.converterInit p <;>
      cases hgp : env.getPages p <;>
      cases hc : env.convert p d <;>
      cases hcl : env.close p <;>
      cases hoe : env.outputExistsAfter d <;>
      simp [convert_pdf_to_word, pdfHandle, isException_true, hp, hd, hdir,
        hci, hgp, hc, hcl, hoe]
  · intro dir
    cases hci : env.converterInit p <;>
      cases hc : env.convert p d <;>
      cases hcl : env.close p <;>
      simp [fn_pdf_to_word, fnHandle, isException_true, hci, hc, hcl]

/-- C7 amended witness: a concrete run of `src/pdf_to_word.py` with missing
output directory `newdir` creates it right after the two checks, while the
other variant performs no directory creation. -/
theorem c7_witness :
    (∃ rest, (convert_pdf_to_word envPdfNoDirs "in.pdf".toList "newdir/out.docx".toList).ops =
      FsOp.existsCheck "in.pdf".toList ::
        FsOp.existsCheck (dirname "newdir/out.docx".toList) ::
        FsOp.makedirs (dirname "newdir/out.docx".toList) :: rest) ∧
    FsOp.makedirs "newdir".toList ∉
      (fn_pdf_to_word envPdfNoDirs "in.pdf".toList "newdir/out.docx".toList).ops :=
  ⟨(c7_amended_mkdir envPdfNoDirs "in.pdf".toList "newdir/out.docx".toList
      (by decide) (by decide) (by decide)).1,
   (c7_amended_mkdir envPdfNoDirs "in.pdf".toList "newdir/out.docx".toList
      (by decide) (by decide) (by decide)).2 "newdir".toList⟩

/-- C8: whenever the argument vector does not consist of the program name plus
exactly two arguments, each of the three scripts performs no filesystem
operation, prints exactly its usage line, and exits with code 1. -/
theorem c8_bad_argc_usage (envW : WordEnv) (envP : PdfEnv) (argv : List (List Char))
    (h : argv.length ≠ 3) :
    word_to_pdf_script envW argv =
      { ops := [], printed := [ usage_word ], outcome := Outcome.exited 1 } ∧
    pdf_to_word_script envP argv =
      { ops := [], printed := [ usage_pdf ], outcome := Outcome.exited 1 } ∧
    fn_pdf_to_word_script envP argv =
      { ops := [], printed := [ usage_fn ], outcome := Outcome.exited 1 } := by
  rcases argv with _ | ⟨a, _ | ⟨b, _ | ⟨c, _ | ⟨e, rest⟩⟩⟩⟩
  · exact ⟨rfl, rfl, rfl⟩
  · exact ⟨rfl, rfl, rfl⟩
  · exact ⟨rfl, rfl, rfl⟩
  · simp at h
  · exact ⟨rfl, rfl, rfl⟩

/-- C8 witness: with an empty argument vector all three scripts print usage
and exit 1 with an empty operation trace. -/
theorem c8_witness :
    word_to_pdf_script envWordOk [] =
      { ops := [], printed := [ usage_word ], outcome := Outcome.exited 1 } ∧
    pdf_to_word_script envPdfAllOk [] =
      { ops := [], printed := [ usage_pdf ], outcome := Outcome.exited 1 } ∧
    fn_pdf_to_word_script envPdfAllOk [] =
      { ops := [], printed := [ usage_fn ], outcome := Outcome.exited 1 } :=
  c8_bad_argc_usage envWordOk envPdfAllOk [] (by decide)

/-- C9: the progress display of `src/functions/pdf_to_word.py` consists of
exactly 10 page lines computed from the hardcoded page count 10, and for any
two runs whose converter constructor succeeds — in particular for any two
input documents — the printed progress segment is identical. -/
theorem c9_fixed_progress (env1 env2 : PdfEnv) (p1 d1 p2 d2 : List Char)
    (h1 : env1.converterInit p1 = none) (h2 : env2.converterInit p2 = none) :
    (progressLines 10).length = 10 ∧
    ((fn_pdf_to_word env1 p1 d1).printed.drop 2).take 10 = progressLines 10 ∧
    ((fn_pdf_to_word env1 p1 d1).printed.drop 2).take 10 =
      ((fn_pdf_to_word env2 p2 d2).printed.drop 2).take 10 := by
  have key : ∀ (env : PdfEnv) (p d : List Char), env.converterInit p = none →
      ((fn_pdf_to_word env p d).printed.drop 2).take 10 = progressLines 10 := by
    intro env p d h
    cases hc : env.convert p d <;>
      cases hcl : env.close p <;>
      simp [fn_pdf_to_word, fnHandle, isException_true, h, hc, hcl,
        List.append_assoc, take_progress]
  exact ⟨progressLines_length, key env1 p1 d1 h1,
    by rw [key env1 p1 d1 h1, key env2 p2 d2 h2]⟩

/-- C9 witness: two concrete runs on different documents in different worlds
print the same 10-line progress segment. -/
theorem c9_witness :
    (progressLines 10).length = 10 ∧
    ((fn_pdf_to_word envPdfAllOk "a.pdf".toList "o1.docx".toList).printed.drop 2).take 10 =
      progressLines 10 ∧
    ((fn_pdf_to_word envPdfAllOk "a.pdf".toList "o1.docx".toList).printed.drop 2).take 10 =
      ((fn_pdf_to_word envPdfNoOutput "b.pdf".toList "o2.docx".toList).printed.drop 2).take 10 :=
  c9_fixed_progress envPdfAllOk envPdfNoOutput "a.pdf".toList "o1.docx".toList
    "b.pdf".toList "o2.docx".toList rfl rfl
